import Mathlib

/-!
Verification of the trading-agent signal-scoring module, bias store and
HTTP/bot glue against its specification.

Numbers: the JavaScript sources compute with IEEE doubles, but every formula
here is closed-form arithmetic on scraped decimal values; we embed JS numbers
as exact rationals (`ℚ`), with `Option ℚ` for nullable fields
(`null`/`undefined` becomes `none`).  `Math.round` is JS rounding
(half toward positive infinity), modelled as `⌊q + 1/2⌋ : ℤ`, so scores are
integers by construction.  Division by zero follows the rational convention
`q / 0 = 0`; the only input where this diverges from IEEE semantics
(`ratio = slowMA = 0`, where JS produces `0/0 = NaN`) is excluded from the
range theorems below and called out where it matters.

State: the process-wide bias store `biasStore = { BTC, SPX, XAU, XAG }` is a
string-keyed JS object, embedded as a function `String → Option String`
(`none` is an absent key).  The admin endpoint, the periodic bias refresh and
the chat orchestrator are embedded as pure state-passing functions over it;
network I/O (the scrape result, the incoming request fields) becomes explicit
arguments, and the LLM call is abstracted as an `llmRequest` outcome carrying
exactly the data the source would send.
-/

/-- JS `Math.round` on exact rationals: round half toward positive infinity. -/
def jsRound (q : ℚ) : ℤ := ⌊q + 1/2⌋

/-- JS `String.prototype.includes`, on character lists: does `pat` occur as a
contiguous substring of `s`? -/
def jsIncludes : List Char → List Char → Bool
  | [], pat => pat.isEmpty
  | c :: rest, pat => pat.isPrefixOf (c :: rest) || jsIncludes rest pat

/-- JS `String.prototype.trim`, on character lists: strip leading and trailing
whitespace. -/
def jsTrim (s : List Char) : List Char :=
  ((s.dropWhile Char.isWhitespace).reverse.dropWhile Char.isWhitespace).reverse

/-- JS `String.prototype.toLowerCase` (the sources only feed it ASCII). -/
def jsToLower (s : String) : List Char := s.data.map Char.toLower

/-- JS `String.prototype.toUpperCase` (the sources only feed it ASCII). -/
def jsToUpper (s : List Char) : String := String.mk (s.map Char.toUpper)

/-- `calculateConfidenceScore` from `src/server.js` (absence guard
`ratio == null || slowMA == null`).  Branch structure and the expression
`Math.max(Math.min((distance / (0.5 * slowMA)) * 100, 100), 10)` are
transcribed literally. -/
def calculateConfidenceScore (lastSignal : String) (ratio slowMA : Option ℚ) : ℤ :=
  match ratio, slowMA with
  | some r, some s =>
      jsRound
        (if lastSignal = "BUY" then
          if r > s then 10
          else max (min (|s - r| / (0.5 * s) * 100) 100) 10
        else if lastSignal = "SELL" then
          if r < s then 10
          else max (min (|r - s| / (0.5 * s) * 100) 100) 10
        else 10)
  | _, _ => 0

/-- `calculateConfidenceScore` from `src/unnamed/part_000` (absence guard
`!ratio || !slowMA`, which is also triggered by the falsy number `0`).
After the guard the arithmetic is identical to the `src/server.js` variant
(`normalized = Math.min(...)` then `score = Math.max(normalized, 10)`). -/
def calculateConfidenceScoreTruthy (lastSignal : String) (ratio slowMA : Option ℚ) : ℤ :=
  match ratio, slowMA with
  | some r, some s =>
      if r = 0 ∨ s = 0 then 0
      else
        jsRound
          (if lastSignal = "BUY" then
            if r > s then 10
            else max (min (|s - r| / (0.5 * s) * 100) 100) 10
          else if lastSignal = "SELL" then
            if r < s then 10
            else max (min (|r - s| / (0.5 * s) * 100) 100) 10
          else 10)
  | _, _ => 0

/-- Specification-side restatement of the confidence-score contract, written
from the words of the spec (spec section 4.1): absent input gives 0; BUY with
`ratio > slowMA` stays at the floor 10; otherwise the normalized distance
`|slowMA - ratio| / (0.5 * slowMA) * 100` is capped at 100 and floored at 10
and rounded; SELL is symmetric with floor when `ratio < slowMA`; HOLD or any
other signal gives 10. -/
def confidenceScoreSpec (lastSignal : String) (ratio slowMA : Option ℚ) : ℤ :=
  match ratio, slowMA with
  | some r, some s =>
      if lastSignal = "BUY" then
        if r > s then 10
        else jsRound (max (min (|s - r| / (0.5 * s) * 100) 100) 10)
      else if lastSignal = "SELL" then
        if r < s then 10
        else jsRound (max (min (|s - r| / (0.5 * s) * 100) 100) 10)
      else 10
  | _, _ => 0

/-- `calculateTopProbability` from `src/unnamed/part_000` and `src/bot.js`
(both occurrences are textually identical).  Guard `!price ||
!shortTermRealizedPrice` catches absent and zero inputs. -/
def calculateTopProbability (price shortTermRealizedPrice : Option ℚ) : ℤ :=
  match price, shortTermRealizedPrice with
  | some p, some s =>
      if p = 0 ∨ s = 0 then 0
      else
        let r := p / s
        if r < 1 then 0
        else if r ≥ 1.36 then 90
        else if 1.18 ≤ r ∧ r < 1.36 then jsRound (60 + (90 - 60) / (1.36 - 1.18) * (r - 1.18))
        else jsRound (10 + (r - 1) / (1.18 - 1) * 50)
  | _, _ => 0

/-- Specification-side restatement of the top-probability contract, written
from the words of the spec (spec section 4.1): falsy input gives 0; then with
`r = price / shortTermRealizedPrice`, `r < 1` gives 0, `r ≥ 1.36` gives 90,
`1.18 ≤ r < 1.36` interpolates 60 to 90, `1 ≤ r < 1.18` interpolates 10 to 60.
The four branch conditions are exhaustive over the rationals, so the trailing
default is unreachable. -/
def topProbabilitySpec (price shortTermRealizedPrice : Option ℚ) : ℤ :=
  match price, shortTermRealizedPrice with
  | some p, some s =>
      if p = 0 ∨ s = 0 then 0
      else
        let r := p / s
        if r < 1 then 0
        else if r ≥ 1.36 then 90
        else if 1.18 ≤ r ∧ r < 1.36 then jsRound (60 + (90 - 60) / (1.36 - 1.18) * (r - 1.18))
        else if 1 ≤ r ∧ r < 1.18 then jsRound (10 + (r - 1) / (1.18 - 1) * 50)
        else 0
  | _, _ => 0

/-- The process-wide bias store: a string-keyed JS object. -/
def BiasStore : Type := String → Option String

/-- JS property assignment `store[key] = value`. -/
def storeSet (store : BiasStore) (key value : String) : BiasStore :=
  fun k => if k = key then some value else store k

/-- The initial store `{ BTC: "neutral", SPX: "neutral", XAU: "neutral",
XAG: "neutral" }` (identical in every source variant). -/
def initBiasStore : BiasStore := fun k =>
  if k = "BTC" ∨ k = "SPX" ∨ k = "XAU" ∨ k = "XAG" then some "neutral" else none

/-- The `allowed` list of the admin endpoint. -/
def adminAllowedAssets : List String := ["XAU", "XAG"]

/-- The bias values accepted by the admin endpoint (and the only values any
writer ever stores). -/
def adminAllowedBiases : List String := ["bullish", "bearish", "neutral"]

/-- HTTP outcome of the admin set-bias endpoint: an error status with its JSON
`error` message, or the 200 `{success: true, asset, bias}` payload. -/
inductive SetBiasResp where
  | err (status : Nat) (msg : String)
  | ok (asset bias : String)
deriving DecidableEq

/-- The `POST /admin/set-bias` handler (identical in `src/bot.js`,
`src/unnamed/part_000`, `src/unnamed/part_001` and `src/server.js`): password
check first, then asset allow-list, then bias allow-list, then the store
write.  The configured `process.env.ADMIN_PASSWORD` is the `adminPassword`
argument. -/
def adminSetBias (adminPassword password asset bias : String) (store : BiasStore) :
    SetBiasResp × BiasStore :=
  if password ≠ adminPassword then (SetBiasResp.err 403 "Unauthorized", store)
  else if adminAllowedAssets.contains asset = false then
    (SetBiasResp.err 400 "Only XAU and XAG can be set manually", store)
  else if adminAllowedBiases.contains bias = false then
    (SetBiasResp.err 400 "Bias must be bullish, bearish, or neutral", store)
  else (SetBiasResp.ok asset bias, storeSet store asset bias)

/-- The state update of a successful `fetchBias` run (the `try` body in
`src/server.js` and the other variants): scan the fetched page for the signal
marker, write `biasStore.BTC`, then mirror it with
`biasStore.SPX = biasStore.BTC`.  The network fetch itself is external; its
result is the `html` argument. -/
def fetchBiasUpdate (html : String) (store : BiasStore) : BiasStore :=
  let btc : String :=
    if jsIncludes html.data "Current Signal: BUY".data then "bullish"
    else if jsIncludes html.data "Current Signal: SELL".data then "bearish"
    else "neutral"
  let s1 := storeSet store "BTC" btc
  storeSet s1 "SPX" ((s1 "BTC").getD "neutral")

/-- The `allowedAssets` list shared by the chat handler and the bot. -/
def allowedAssets : List String := ["BTC", "SPX", "XAU", "XAG"]

/-- The `allowedQuestions` topic list. -/
def allowedQuestions : List String :=
  ["market trend", "entry strategy", "exit strategy", "risk management"]

/-- Invalid-asset error message of the chat handler. -/
def assetErrMsg : String :=
  "I can\x27t assist with that asset—this system only covers BTC, SPX, XAU, and XAG."

/-- Invalid-topic error message of the chat handler
(`allowedQuestions.join(", ")` interpolated). -/
def questionErrMsg : String :=
  "I can only answer questions about: " ++ String.intercalate ", " allowedQuestions

/-- The topic validation `allowedQuestions.some(q =>
question.toLowerCase().includes(q))`. -/
def questionTopicFound (question : String) : Bool :=
  allowedQuestions.any fun q => jsIncludes (jsToLower question) q.data

/-- Outcome of `handleChat` up to the external LLM call: either a validation
error returned to the caller, or an `llmRequest` recording that the handler
proceeds to invoke the LLM adapter with the validated asset, the bias read
from the store, and the question.  (The market-data fetch, prompt assembly and
LLM reply that follow a successful validation are external I/O and do not
touch the bias store.) -/
inductive ChatOutcome where
  | validationError (msg : String)
  | llmRequest (asset bias question : String)
deriving DecidableEq

/-- The validation and store-read portion of `handleChat` from
`src/unnamed/part_000` / `src/bot.js` (and the inline `/chat` handler of
`src/server.js` / `src/unnamed/part_001`): asset allow-list check, then topic
substring check, then `bias = biasStore[asset] || "neutral"` and the LLM
invocation. -/
def handleChat (asset question : String) (store : BiasStore) : ChatOutcome × BiasStore :=
  if allowedAssets.contains asset = false then
    (ChatOutcome.validationError assetErrMsg, store)
  else if questionTopicFound question = false then
    (ChatOutcome.validationError questionErrMsg, store)
  else
    (ChatOutcome.llmRequest asset ((store asset).getD "neutral") question, store)

/-- Per-chat dialogue state of the Telegram bot in `src/bot.js`:
`{ stage: "waitingAsset"|"waitingQuestion", asset: "" }`. -/
structure UserState where
  stage : String
  asset : String
deriving DecidableEq

/-- The `userState` map keyed by chat id. -/
def StateMap : Type := Nat → Option UserState

/-- The `/start` handler of `src/bot.js`: reset this chat to
`{ stage: "waitingAsset", asset: "" }`. -/
def botStart (chatId : Nat) (m : StateMap) : StateMap :=
  fun id => if id = chatId then some { stage := "waitingAsset", asset := "" } else m id

/-- The free-text message handler of `src/bot.js` (lines 22-80), as a state
transformer: trim the text, ignore `/start`, create a fresh state for unknown
chats, consume an asset in stage `waitingAsset` (uppercased, validated against
`allowedAssets`), and in stage `waitingQuestion` call the backend and reset
the state to `waitingAsset` with an empty asset (the reset happens on both the
success and the error path of the backend call, so it is unconditional
here). -/
def botMessage (chatId : Nat) (text : String) (m : StateMap) : StateMap :=
  let t := jsTrim text.data
  if "/start".data.isPrefixOf t then m
  else
    match m chatId with
    | none => fun id => if id = chatId then some { stage := "waitingAsset", asset := "" } else m id
    | some st =>
      if st.stage = "waitingAsset" then
        if allowedAssets.contains (jsToUpper t) then
          fun id =>
            if id = chatId then some { stage := "waitingQuestion", asset := jsToUpper t } else m id
        else m
      else if st.stage = "waitingQuestion" then
        fun id => if id = chatId then some { stage := "waitingAsset", asset := "" } else m id
      else m

/-- Dialogue-state invariant of the bot: every stored stage is one of the two
dialogue stages, and a chat waiting for a question has a validated asset. -/
def stateInv (m : StateMap) : Prop :=
  ∀ id st, m id = some st →
    (st.stage = "waitingAsset" ∨ st.stage = "waitingQuestion") ∧
      (st.stage = "waitingQuestion" → allowedAssets.contains st.asset = true)

/-- A key of the bias store holds a legal entry: present, and one of the three
bias values. -/
def validBiasEntry (v : Option String) : Bool :=
  match v with
  | some b => adminAllowedBiases.contains b
  | none => false

/-- The bias-store invariant: all four asset keys are present and each maps to
one of bullish/bearish/neutral. -/
def biasInvariant (store : BiasStore) : Bool :=
  validBiasEntry (store "BTC") && validBiasEntry (store "SPX") &&
    validBiasEntry (store "XAU") && validBiasEntry (store "XAG")

/-- Bias-store states reachable from startup through the two writers: the
admin endpoint (with arbitrary request data) and the periodic bias refresh
(with an arbitrary fetched page). -/
inductive ReachableBias : BiasStore → Prop where
  | init : ReachableBias initBiasStore
  | admin (adminPassword password asset bias : String) (s : BiasStore) :
      ReachableBias s → ReachableBias (adminSetBias adminPassword password asset bias s).2
  | refresh (html : String) (s : BiasStore) :
      ReachableBias s → ReachableBias (fetchBiasUpdate html s)

/-- A rounded value of a rational in `[10, 100]` stays in `[10, 100]`. -/
lemma jsRound_bounds {q : ℚ} (h1 : 10 ≤ q) (h2 : q ≤ 100) :
    10 ≤ jsRound q ∧ jsRound q ≤ 100 := by
  unfold jsRound
  have hlow : (⌊(21/2 : ℚ)⌋ : ℤ) = 10 := by norm_num [Int.floor_eq_iff]
  have hhigh : (⌊(201/2 : ℚ)⌋ : ℤ) = 100 := by norm_num [Int.floor_eq_iff]
  constructor
  · have h := Int.floor_le_floor (show (21/2 : ℚ) ≤ q + 1/2 by linarith)
    rwa [hlow] at h
  · have h := Int.floor_le_floor (show q + 1/2 ≤ (201/2 : ℚ) by linarith)
    rwa [hhigh] at h

/-- The confidence score of the `src/server.js` variant is always in
`[10, 100]` when both numeric inputs are present (in the exact-rational
model; the lone IEEE divergence point `ratio = slowMA = 0` is excluded by
the range theorems that cite this lemma): every branch of the score
expression is either the literal 10 or clamped into `[10, 100]` by the
`max`/`min` pair before rounding. -/
lemma confidenceScore_bounds (lastSignal : String) (r s : ℚ) :
    10 ≤ calculateConfidenceScore lastSignal (some r) (some s) ∧
      calculateConfidenceScore lastSignal (some r) (some s) ≤ 100 := by
  simp only [calculateConfidenceScore]
  split_ifs <;> exact jsRound_bounds (by norm_num) (by norm_num)

/-- On inputs where both values are present and nonzero, the truthiness-guard
variant coincides with the null-guard variant. -/
lemma confidenceScore_eq_truthy (lastSignal : String) (r s : ℚ)
    (hr : r ≠ 0) (hs : s ≠ 0) :
    calculateConfidenceScoreTruthy lastSignal (some r) (some s) =
      calculateConfidenceScore lastSignal (some r) (some s) := by
  simp only [calculateConfidenceScoreTruthy, calculateConfidenceScore]
  rw [if_neg (by tauto)]

/-- C1: for the null-guard implementation, absent `ratio` or `slowMA` yields 0,
BUY with `ratio > slowMA` yields the floor 10, BUY otherwise yields the rounded
clamped normalized distance, SELL symmetrically (floor when `ratio < slowMA`),
and HOLD or any other signal yields 10 — i.e. the function equals the
specification formula; additionally the two worked examples of the spec evaluate as
stated. -/
theorem C1_confidence_score_formula :
    (∀ (lastSignal : String) (ratio slowMA : Option ℚ),
        calculateConfidenceScore lastSignal ratio slowMA =
          confidenceScoreSpec lastSignal ratio slowMA) ∧
      calculateConfidenceScore "BUY" (some 105) (some 100) = 10 ∧
      calculateConfidenceScore "BUY" (some 50) (some 100) = 100 := by
  refine ⟨?_, ?_, ?_⟩
  · intro lastSignal ratio slowMA
    match ratio, slowMA with
    | none, none => rfl
    | none, some s => rfl
    | some r, none => rfl
    | some r, some s =>
      simp only [calculateConfidenceScore, confidenceScoreSpec]
      split_ifs <;>
        first
          | rfl
          | rw [abs_sub_comm r s]
          | norm_num [jsRound, Int.floor_eq_iff]
  · norm_num [calculateConfidenceScore, jsRound, min_def, max_def, Int.floor_eq_iff]
  · norm_num [calculateConfidenceScore, jsRound, min_def, max_def, Int.floor_eq_iff]

/-- C2: the top-probability implementation equals the specification formula
(returning 0 on absent or zero input, 0 below ratio 1, 90 at and above 1.36,
and the two linear interpolations in between, with the final branch exactly
covering `1 ≤ r < 1.18`), and the breakpoint anchors and the worked examples
of the spec evaluate to the stated values. -/
theorem C2_top_probability_formula :
    (∀ (price strp : Option ℚ),
        calculateTopProbability price strp = topProbabilitySpec price strp) ∧
      calculateTopProbability (some 1) (some 1) = 10 ∧
      calculateTopProbability (some 1.18) (some 1) = 60 ∧
      calculateTopProbability (some 1.36) (some 1) = 90 ∧
      calculateTopProbability (some 100) (some 100) = 10 ∧
      calculateTopProbability (some 90) (some 100) = 0 ∧
      calculateTopProbability none (some 5) = 0 ∧
      calculateTopProbability (some 0) (some 5) = 0 := by
  refine ⟨?_, ?_, ?_, ?_, ?_, ?_, rfl, ?_⟩
  · intro price strp
    match price, strp with
    | none, none => rfl
    | none, some s => rfl
    | some p, none => rfl
    | some p, some s =>
      simp only [calculateTopProbability, topProbabilitySpec]
      split_ifs with h0 h1 h2 h3 h4 <;> try rfl
      exfalso
      refine h4 ⟨not_lt.mp h1, ?_⟩
      by_contra hge
      exact h3 ⟨not_lt.mp hge, not_le.mp h2⟩
  all_goals norm_num [calculateTopProbability, jsRound, Int.floor_eq_iff]

/-- Overwriting one chat id with a state satisfying the per-entry condition
preserves the dialogue invariant. -/
lemma stateInv_overwrite (m : StateMap) (hm : stateInv m) (chatId : Nat) (st0 : UserState)
    (h0 : (st0.stage = "waitingAsset" ∨ st0.stage = "waitingQuestion") ∧
      (st0.stage = "waitingQuestion" → allowedAssets.contains st0.asset = true)) :
    stateInv (fun id => if id = chatId then some st0 else m id) := by
  intro id st h
  have h' : (if id = chatId then some st0 else m id) = some st := h
  by_cases hid : id = chatId
  · rw [if_pos hid] at h'
    injection h' with h'
    subst h'
    exact h0
  · rw [if_neg hid] at h'
    exact hm id st h'

/-- C3 counterexample: the claim includes `ratio = 0` as a present numeric
input, but the truthiness-guard variant returns 0 there, outside
`[10, 100]`. -/
theorem C3_confidence_range_counterexample :
    calculateConfidenceScoreTruthy "BUY" (some 0) (some (67/100)) = 0 ∧
      ¬ (10 ≤ calculateConfidenceScoreTruthy "BUY" (some 0) (some (67/100)) ∧
          calculateConfidenceScoreTruthy "BUY" (some 0) (some (67/100)) ≤ 100) := by
  have h : calculateConfidenceScoreTruthy "BUY" (some 0) (some (67/100)) = 0 := by
    norm_num [calculateConfidenceScoreTruthy]
  exact ⟨h, by rw [h]; norm_num⟩

/-- C3 (amended): for present numeric inputs with `ratio ≠ 0` and
`slowMA ≠ 0` (of either sign), both implementation variants return an integer
in `[10, 100]`; at `ratio = 0` or `slowMA = 0` the truthiness-guard variant
returns 0, and at `ratio = slowMA = 0` the null-guard variant computes `0/0`
(`NaN` in JS), so those points are excluded. -/
theorem C3_confidence_range_amended (lastSignal : String) (r s : ℚ)
    (hr : r ≠ 0) (hs : s ≠ 0) :
    (10 ≤ calculateConfidenceScore lastSignal (some r) (some s) ∧
        calculateConfidenceScore lastSignal (some r) (some s) ≤ 100) ∧
      (10 ≤ calculateConfidenceScoreTruthy lastSignal (some r) (some s) ∧
        calculateConfidenceScoreTruthy lastSignal (some r) (some s) ≤ 100) := by
  refine ⟨confidenceScore_bounds lastSignal r s, ?_⟩
  rw [confidenceScore_eq_truthy lastSignal r s hr hs]
  exact confidenceScore_bounds lastSignal r s

/-- Witness for the amended C3 at the concrete input SELL, 1/2, 2/3. -/
theorem C3_confidence_range_witness :
    ((1/2 : ℚ) ≠ 0 ∧ (2/3 : ℚ) ≠ 0) ∧
      ((10 ≤ calculateConfidenceScore "SELL" (some (1/2)) (some (2/3)) ∧
          calculateConfidenceScore "SELL" (some (1/2)) (some (2/3)) ≤ 100) ∧
        (10 ≤ calculateConfidenceScoreTruthy "SELL" (some (1/2)) (some (2/3)) ∧
          calculateConfidenceScoreTruthy "SELL" (some (1/2)) (some (2/3)) ≤ 100)) :=
  ⟨⟨by norm_num, by norm_num⟩,
    C3_confidence_range_amended "SELL" (1/2) (2/3) (by norm_num) (by norm_num)⟩

/-- C9 counterexample: the two variants disagree at the present input
`ratio = 0`, `slowMA = 100` with signal BUY: the null-guard variant scores
100 while the truthiness-guard variant returns 0. -/
theorem C9_variants_counterexample :
    calculateConfidenceScore "BUY" (some 0) (some 100) = 100 ∧
      calculateConfidenceScoreTruthy "BUY" (some 0) (some 100) = 0 ∧
      calculateConfidenceScore "BUY" (some 0) (some 100) ≠
        calculateConfidenceScoreTruthy "BUY" (some 0) (some 100) := by
  have h1 : calculateConfidenceScore "BUY" (some 0) (some 100) = 100 := by
    norm_num [calculateConfidenceScore, jsRound, min_def, max_def, Int.floor_eq_iff]
  have h2 : calculateConfidenceScoreTruthy "BUY" (some 0) (some 100) = 0 := by
    norm_num [calculateConfidenceScoreTruthy]
  exact ⟨h1, h2, by rw [h1, h2]; norm_num⟩

/-- C9 (amended): the two variants agree on every input triple in which
neither `ratio` nor `slowMA` is the present value 0 (absent inputs
included); they differ only where a present `ratio` or `slowMA` is 0. -/
theorem C9_variants_agree_amended (lastSignal : String) (ratio slowMA : Option ℚ)
    (hr : ratio ≠ some 0) (hs : slowMA ≠ some 0) :
    calculateConfidenceScore lastSignal ratio slowMA =
      calculateConfidenceScoreTruthy lastSignal ratio slowMA := by
  match ratio, slowMA with
  | none, none => rfl
  | none, some s => rfl
  | some r, none => rfl
  | some r, some s =>
    exact (confidenceScore_eq_truthy lastSignal r s
      (fun h => hr (by rw [h])) (fun h => hs (by rw [h]))).symm

/-- Witness for the amended C9 at the concrete input SELL, 1, 2. -/
theorem C9_variants_agree_witness :
    (some (1 : ℚ) ≠ some (0 : ℚ) ∧ some (2 : ℚ) ≠ some (0 : ℚ)) ∧
      calculateConfidenceScore "SELL" (some 1) (some 2) =
        calculateConfidenceScoreTruthy "SELL" (some 1) (some 2) :=
  ⟨⟨by norm_num, by norm_num⟩,
    C9_variants_agree_amended "SELL" (some 1) (some 2) (by norm_num) (by norm_num)⟩

/-- C4 counterexample: with a wrong password and asset BTC the endpoint
answers 403 Unauthorized — not a 400 validation error naming the asset
restriction — because the password check runs first. -/
theorem C4_admin_btc_counterexample :
    (adminSetBias "secret" "wrong" "BTC" "bullish" initBiasStore).1 =
        SetBiasResp.err 403 "Unauthorized" ∧
      SetBiasResp.err 403 "Unauthorized" ≠
        SetBiasResp.err 400 "Only XAU and XAG can be set manually" :=
  ⟨rfl, by decide⟩

/-- C4 (amended): a set-bias request for BTC or SPX never succeeds and never
changes the store: with a matching password it fails 400 naming the asset
restriction, and with a mismatched password it fails 403 Unauthorized. -/
theorem C4_admin_btc_spx_amended (adminPassword password bias : String) (store : BiasStore)
    (asset : String) (hasset : asset = "BTC" ∨ asset = "SPX") :
    (adminSetBias adminPassword password asset bias store).1 =
        (if password = adminPassword then
          SetBiasResp.err 400 "Only XAU and XAG can be set manually"
        else SetBiasResp.err 403 "Unauthorized") ∧
      (adminSetBias adminPassword password asset bias store).2 = store := by
  have hc : asset ∉ adminAllowedAssets := by
    rcases hasset with h | h <;> subst h <;> decide
  by_cases hp : password = adminPassword
  · simp [adminSetBias, hp, hc]
  · simp [adminSetBias, hp]

/-- Witness for the amended C4 at a concrete matching-password request. -/
theorem C4_admin_btc_spx_witness :
    ("BTC" = "BTC" ∨ "BTC" = "SPX") ∧
      (adminSetBias "s" "s" "BTC" "bullish" initBiasStore).1 =
        SetBiasResp.err 400 "Only XAU and XAG can be set manually" ∧
      (adminSetBias "s" "s" "BTC" "bullish" initBiasStore).2 = initBiasStore := by
  have h := C4_admin_btc_spx_amended "s" "s" "bullish" initBiasStore "BTC" (Or.inl rfl)
  exact ⟨Or.inl rfl, by rw [h.1]; rfl, h.2⟩

/-- C5: the admin endpoint behaves exactly as specified — 403 on password
mismatch, 400 when the asset is outside XAU/XAG or the bias is outside
bullish/bearish/neutral (store untouched in every failure case), and on
success 200 `{success, asset, bias}` with the store entry for that asset set
to the given bias. -/
theorem C5_admin_endpoint_contract :
    (∀ (adminPassword password asset bias : String) (store : BiasStore),
        adminSetBias adminPassword password asset bias store =
          if password = adminPassword then
            if asset = "XAU" ∨ asset = "XAG" then
              if bias = "bullish" ∨ bias = "bearish" ∨ bias = "neutral" then
                (SetBiasResp.ok asset bias, storeSet store asset bias)
              else (SetBiasResp.err 400 "Bias must be bullish, bearish, or neutral", store)
            else (SetBiasResp.err 400 "Only XAU and XAG can be set manually", store)
          else (SetBiasResp.err 403 "Unauthorized", store)) ∧
      ∀ (store : BiasStore) (asset bias : String),
        storeSet store asset bias asset = some bias := by
  constructor
  · intro apw pw asset bias store
    simp only [adminSetBias]
    split_ifs <;>
      first
        | rfl
        | simp_all [adminAllowedAssets, adminAllowedBiases]
  · intro store asset bias
    simp [storeSet]

/-- C6: after any successful bias refresh the SPX entry equals the BTC entry;
in particular when the refresh sets BTC to bullish, SPX reads bullish. -/
theorem C6_refresh_mirrors_btc_to_spx (html : String) (store : BiasStore) :
    fetchBiasUpdate html store "SPX" = fetchBiasUpdate html store "BTC" ∧
      (fetchBiasUpdate html store "BTC" = some "bullish" →
        fetchBiasUpdate html store "SPX" = some "bullish") := by
  have hmain : fetchBiasUpdate html store "SPX" = fetchBiasUpdate html store "BTC" := by
    simp [fetchBiasUpdate, storeSet]
  exact ⟨hmain, fun h => hmain.trans h⟩

/-- Witness for C6 on a page carrying the BUY marker. -/
theorem C6_refresh_mirrors_witness :
    fetchBiasUpdate "Current Signal: BUY" initBiasStore "BTC" = some "bullish" ∧
      fetchBiasUpdate "Current Signal: BUY" initBiasStore "SPX" = some "bullish" := by
  have hbtc : fetchBiasUpdate "Current Signal: BUY" initBiasStore "BTC" = some "bullish" := by
    decide
  exact ⟨hbtc, (C6_refresh_mirrors_btc_to_spx "Current Signal: BUY" initBiasStore).2 hbtc⟩

/-- C7: on an invalid asset or a question without an allowed topic, the chat
handler returns one of the two validation-error messages (each naming the
allowed values), never reaches the LLM invocation, and leaves the bias store
unchanged. -/
theorem C7_chat_validation (asset question : String) (store : BiasStore)
    (h : allowedAssets.contains asset = false ∨ questionTopicFound question = false) :
    ((handleChat asset question store).1 = ChatOutcome.validationError assetErrMsg ∨
        (handleChat asset question store).1 = ChatOutcome.validationError questionErrMsg) ∧
      (∀ a b q, (handleChat asset question store).1 ≠ ChatOutcome.llmRequest a b q) ∧
      (handleChat asset question store).2 = store := by
  rcases h with h | h
  · have h' : asset ∉ allowedAssets := by simpa using h
    simp [handleChat, h']
  · by_cases ha : asset ∈ allowedAssets
    · simp [handleChat, ha, h]
    · simp [handleChat, ha]

/-- Witness for C7 at a concrete invalid asset. -/
theorem C7_chat_validation_witness :
    (allowedAssets.contains "DOGE" = false ∨ questionTopicFound "hello" = false) ∧
      (handleChat "DOGE" "hello" initBiasStore).1 = ChatOutcome.validationError assetErrMsg ∧
      (handleChat "DOGE" "hello" initBiasStore).2 = initBiasStore := by
  have h : allowedAssets.contains "DOGE" = false := by decide
  have happ := C7_chat_validation "DOGE" "hello" initBiasStore (Or.inl h)
  refine ⟨Or.inl h, ?_, happ.2.2⟩
  rcases happ.1 with h1 | h1
  · exact h1
  · exact absurd h1 (by decide)

/-- C8: every bias-store state reachable from startup through the admin
endpoint and the periodic refresh keeps all four asset keys present with a
value among bullish/bearish/neutral. -/
theorem C8_bias_store_invariant (s : BiasStore) (h : ReachableBias s) :
    biasInvariant s = true := by
  induction h with
  | init => decide
  | admin apw pw asset bias s hs ih =>
      simp only [adminSetBias]
      split_ifs with h1 h2 h3
      · exact ih
      · exact ih
      · exact ih
      · have hsome : ∀ b, validBiasEntry (some b) = adminAllowedBiases.contains b :=
          fun _ => rfl
        have h2' : adminAllowedAssets.contains asset = true := by
          revert h2; cases adminAllowedAssets.contains asset <;> simp
        have hb : adminAllowedBiases.contains bias = true := by
          revert h3; cases adminAllowedBiases.contains bias <;> simp
        have hb' : bias ∈ adminAllowedBiases := by simpa using hb
        have ha : asset = "XAU" ∨ asset = "XAG" := by
          simpa [adminAllowedAssets] using h2'
        simp only [biasInvariant, Bool.and_eq_true] at ih
        obtain ⟨⟨⟨hbtc, hspx⟩, hxau⟩, hxag⟩ := ih
        rcases ha with ha | ha <;> subst ha <;>
          simp [biasInvariant, storeSet, hsome, hbtc, hspx, hxau, hxag, hb, hb']
  | refresh html s hs ih =>
      have hsome : ∀ b, validBiasEntry (some b) = adminAllowedBiases.contains b :=
        fun _ => rfl
      simp only [biasInvariant, Bool.and_eq_true] at ih
      obtain ⟨⟨⟨hbtc, hspx⟩, hxau⟩, hxag⟩ := ih
      simp [fetchBiasUpdate, storeSet, biasInvariant, hsome, hxau, hxag]
      split_ifs <;> simp [adminAllowedBiases]

/-- Witness for C8 at the initial store. -/
theorem C8_bias_store_invariant_witness : biasInvariant initBiasStore = true :=
  C8_bias_store_invariant initBiasStore ReachableBias.init

/-- C10: the message handling of the bot preserves the dialogue invariant — every
stored stage is `waitingAsset` or `waitingQuestion`, a chat in
`waitingQuestion` holds a validated asset — and handling a question resets
that chat to `waitingAsset` with an empty asset. -/
theorem C10_bot_state_machine (m : StateMap) (hm : stateInv m) :
    (∀ chatId, stateInv (botStart chatId m)) ∧
      (∀ chatId text, stateInv (botMessage chatId text m)) ∧
      (∀ chatId text st, m chatId = some st → st.stage = "waitingQuestion" →
        "/start".data.isPrefixOf (jsTrim text.data) = false →
        botMessage chatId text m chatId = some { stage := "waitingAsset", asset := "" }) := by
  refine ⟨?_, ?_, ?_⟩
  · intro chatId
    exact stateInv_overwrite m hm chatId _
      ⟨Or.inl rfl, fun habs => absurd habs (by decide)⟩
  · intro chatId text
    by_cases hstart : ("/start".data.isPrefixOf (jsTrim text.data)) = true
    · have hb : botMessage chatId text m = m := by simp [botMessage, hstart]
      rw [hb]; exact hm
    · cases hQ : m chatId with
      | none =>
          have hb : botMessage chatId text m = fun id =>
              if id = chatId then some { stage := "waitingAsset", asset := "" } else m id := by
            simp [botMessage, hstart, hQ]
          rw [hb]
          exact stateInv_overwrite m hm chatId _
            ⟨Or.inl rfl, fun habs => absurd habs (by decide)⟩
      | some st =>
          by_cases h1 : st.stage = "waitingAsset"
          · by_cases h2 : allowedAssets.contains (jsToUpper (jsTrim text.data)) = true
            · have h2' : jsToUpper (jsTrim text.data) ∈ allowedAssets := by simpa using h2
              have hb : botMessage chatId text m = fun id =>
                  if id = chatId then
                    some { stage := "waitingQuestion", asset := jsToUpper (jsTrim text.data) }
                  else m id := by
                simp [botMessage, hstart, hQ, h1, h2']
              rw [hb]
              exact stateInv_overwrite m hm chatId _ ⟨Or.inr rfl, fun _ => h2⟩
            · have h2' : jsToUpper (jsTrim text.data) ∉ allowedAssets := by simpa using h2
              have hb : botMessage chatId text m = m := by
                simp [botMessage, hstart, hQ, h1, h2']
              rw [hb]; exact hm
          · by_cases h3 : st.stage = "waitingQuestion"
            · have hb : botMessage chatId text m = fun id =>
                  if id = chatId then some { stage := "waitingAsset", asset := "" } else m id := by
                simp [botMessage, hstart, hQ, h1, h3]
              rw [hb]
              exact stateInv_overwrite m hm chatId _
                ⟨Or.inl rfl, fun habs => absurd habs (by decide)⟩
            · have hb : botMessage chatId text m = m := by
                simp [botMessage, hstart, hQ, h1, h3]
              rw [hb]; exact hm
  · intro chatId text st hst hstage hstart
    simp [botMessage, hstart, hst, hstage]

/-- Witness for C10: a chat waiting for a question is reset after the
question is handled. -/
theorem C10_bot_state_machine_witness :
    botMessage 0 "exit strategy"
        (fun id => if id = 0 then some { stage := "waitingQuestion", asset := "BTC" } else none)
        0 =
      some { stage := "waitingAsset", asset := "" } := by
  have hm : stateInv
      (fun id => if id = 0 then some { stage := "waitingQuestion", asset := "BTC" } else none) := by
    intro id st h
    have h' : (if id = 0 then some { stage := "waitingQuestion", asset := "BTC" } else none) =
        some st := h
    by_cases hid : id = 0
    · rw [if_pos hid] at h'
      injection h' with h'
      subst h'
      exact ⟨Or.inr rfl, fun _ => by decide⟩
    · rw [if_neg hid] at h'
      exact Option.noConfusion h'
  exact (C10_bot_state_machine _ hm).2.2 0 "exit strategy" _ rfl rfl (by decide)
